import Mathlib

/-!
Shallow embedding of the loded desktop-streaming daemon core
(`src/protocol.rs`, `src/session_request.rs`, `src/capture.rs`),
with theorems settling the specification claims about the wire
protocol, the request correlator, and the capture-session manager.
-/

deriving instance DecidableEq for Except

namespace Loded

/-! Byte-level helpers:

`u64::to_le_bytes` / `i32::to_le_bytes` and their inverses, modelled on
`Nat` / `Int` with explicit truncation where Rust has a fixed width.
-/

/-- Little-endian byte list of width `k` for a natural number
(`to_le_bytes`, truncating at `256 ^ k` like the fixed-width source type). -/
def natToLeBytes : Nat → Nat → List Nat
  | 0, _ => []
  | k + 1, n => n % 256 :: natToLeBytes k (n / 256)

/-- Little-endian reassembly of a byte list into a natural number. -/
def leBytesToNat : List Nat → Nat
  | [] => 0
  | b :: bs => b + 256 * leBytesToNat bs

/-- Rust `i32::to_le_bytes`: the two's-complement 32-bit little-endian bytes. -/
def i32ToLeBytes (v : Int) : List Nat :=
  natToLeBytes 4 (v.emod (2 ^ 32)).toNat

/-- Reassemble 4 little-endian bytes into the signed 32-bit value they encode. -/
def i32FromLeBytes (bs : List Nat) : Int :=
  let n := leBytesToNat bs
  if n < 2 ^ 31 then (n : Int) else (n : Int) - 2 ^ 32

/-! The uninitialised write buffer:

`Arc::new_uninit_slice(n)` is a buffer of `n` uninitialised bytes
(`none`); `dataw[i].write(b)` sets position `i`.  `assume_init` hands the
buffer back as-is, so a position never written stays `none` (in the
source this is undefined behaviour: the byte is read uninitialised).
-/

/-- Model of `Arc::new_uninit_slice(n)`: `n` uninitialised bytes. -/
def mkUninit (n : Nat) : List (Option Nat) :=
  List.replicate n none

/-- Apply a sequence of indexed byte writes (`dataw[i].write(b)`) in order. -/
def writeBytes (l : List (Option Nat)) (ws : List (Nat × Nat)) : List (Option Nat) :=
  ws.foldl (fun acc w => acc.set w.1 (some w.2)) l

/-- Rust's `Iterator::enumerate`, starting from `k`. -/
def enumerateFrom (k : Nat) : List α → List (Nat × α)
  | [] => []
  | x :: xs => (k, x) :: enumerateFrom (k + 1) xs

/-- Rust's `Iterator::enumerate`. -/
def enumerate (l : List α) : List (Nat × α) :=
  enumerateFrom 0 l

/-! Wire protocol (`src/protocol.rs`):

`LodestarPacket` is `{ packet_type: u64 tag, packet_length: u64, packet_data: [u8] }`.
`PACKET_LENGTHS` is indexed by the tag and holds `size_of` of each
fixed-size payload struct; `repr(C)` layout gives
`size_of::<LodestarHandshakePacket>() = 16` (u64 + bool + 7 padding),
`size_of::<LodestarSwitchSourcePacket>() = 8` and
`size_of::<LodestarEndPacket>() = 0`; the `DesktopList` entry is the
literal `0`, the "variable length" sentinel.
-/

inductive LodestarPacketType where
  | handshake
  | desktopList
  | switchSource
  | endOfStream
deriving DecidableEq

/-- The `repr(u64)` tag of each packet type. -/
def LodestarPacketType.tag : LodestarPacketType → Nat
  | .handshake => 0
  | .desktopList => 1
  | .switchSource => 2
  | .endOfStream => 3

/-- The table `static PACKET_LENGTHS: [u64; 4]`. -/
def PACKET_LENGTHS : List Nat := [16, 0, 8, 0]

inductive LodestarPacketParsingError where
  | invalidPacketLength
  | invalidField
deriving DecidableEq

/-- The header part of a received `LodestarPacket` (tag and declared length). -/
structure PacketHeader where
  packet_type : LodestarPacketType
  packet_length : Nat
deriving DecidableEq

/-- The length validation performed by `LodestarPacket::parse_packet`: look up
the expected length for the tag and accept iff the declared length equals it
or the table entry is the `0` sentinel; on success the payload is
reinterpreted in place (no partial parse is constructed on failure). -/
def parse_packet_check (p : PacketHeader) : Except LodestarPacketParsingError Unit :=
  let ex_len := PACKET_LENGTHS.getD p.packet_type.tag 0
  if p.packet_length = ex_len ∨ ex_len = 0 then .ok () else .error .invalidPacketLength

/-- Struct `LodestarHandshakePacket { api_revision: u64, accepted: bool }`. -/
structure LodestarHandshakePacket where
  api_revision : Nat
  accepted : Bool
deriving DecidableEq

/-- The byte stream produced by the iterator in
`impl Into<Arc<[u8]>> for LodestarHandshakePacket`:
`api_revision.to_le_bytes()` chained with `(accepted as u64).to_le_bytes()`. -/
def handshakeBytes (p : LodestarHandshakePacket) : List Nat :=
  natToLeBytes 8 p.api_revision ++ natToLeBytes 8 (if p.accepted then 1 else 0)

/-- Model of `LodestarHandshakePacket::into`: allocate `2 * 8` uninitialised bytes and
write the enumerated chained iterator at its enumeration indices. -/
def handshakePacketInto (p : LodestarHandshakePacket) : List (Option Nat) :=
  writeBytes (mkUninit (2 * 8)) (enumerate (handshakeBytes p))

/-- Struct `LodestarDesktop { loded_id: u64, width: i32, height: i32 }` (16 bytes). -/
structure LodestarDesktop where
  loded_id : Nat
  width : Int
  height : Int
deriving DecidableEq

/-- The 16 bytes of one desktop record in the order the source chains them:
id, width, height, each little-endian. -/
def desktopRecordBytes (d : LodestarDesktop) : List Nat :=
  natToLeBytes 8 d.loded_id ++ i32ToLeBytes d.width ++ i32ToLeBytes d.height

/-- Model of `LodestarDesktopPacket::into`: allocate `8 + 16 * desktop_count`
uninitialised bytes, write the enumerated count bytes at indices `0..7`, then
for desktop number `idx` write each of its 16 record bytes at index `idx + 1`
(the inner `for` loop shadows `item` and reuses the outer enumeration index,
so the write cursor never advances within a record). -/
def desktopPacketInto (desktop_count : Nat) (data : List LodestarDesktop) : List (Option Nat) :=
  let buf := writeBytes (mkUninit (8 + 16 * desktop_count)) (enumerate (natToLeBytes 8 desktop_count))
  (enumerate (data.take desktop_count)).foldl
    (fun acc p => writeBytes acc ((desktopRecordBytes p.2).map (fun b => (p.1 + 1, b)))) buf

/-- One record read of `LodestarDesktopPacket::get_desktops` at byte offset
`off` of the record area: `none` models the out-of-bounds dereference the
source performs when fewer than 16 bytes are actually present there. -/
def readRecordAt (data : List Nat) (off : Nat) : Option LodestarDesktop :=
  if off + 16 ≤ data.length then
    some ⟨leBytesToNat ((data.drop off).take 8),
      i32FromLeBytes ((data.drop (off + 8)).take 4),
      i32FromLeBytes ((data.drop (off + 12)).take 4)⟩
  else none

/-- Model of `LodestarDesktopPacket::get_desktops`: `slice::from_raw_parts` over the
record area with `desktop_count` elements, with no check that the bytes are
actually present. -/
def get_desktops (desktop_count : Nat) (data : List Nat) : List (Option LodestarDesktop) :=
  (List.range desktop_count).map (fun i => readRecordAt data (16 * i))

/-! Request correlation (`src/session_request.rs`):

`call_and_receive_response!` concurrently awaits the next `Response` signal
on the locally derived request proxy `$req` and the broker call itself (which
returns the reply `RequestProxy` `rp`), then compares `$req.path()` with
`rp.path()`.  Error values are the source's `zbus::fdo::Error` values:
`ZBus(InvalidReply)` both for a missing signal and for the final path
mismatch (the spec's `SpoofedReply`), `ZBus(e)` for a body-decode or call
failure, `Failed(..)` for a non-zero response code (the spec's
`BrokerRejected`).  `try_join!` resolves both arms; when exactly one arm
fails its error is returned — the model reports the signal arm's error first
when both fail, an ordering no claim depends on (in the source it is
timing-dependent). -/

inductive FdoError where
  /-- `zbus::fdo::Error::ZBus(zbus::Error::InvalidReply)`. -/
  | invalidReply
  /-- `zbus::fdo::Error::ZBus(e)` from `Response::body` deserialisation. -/
  | bodyDecode
  /-- `zbus::fdo::Error::Failed("Interaction Cancelled: ...")`. -/
  | interactionCancelled (code : Nat)
  /-- `zbus::fdo::Error::ZBus(e)` from the failed broker call. -/
  | callFailed
deriving DecidableEq

/-- The environment one `call_and_receive_response!` invocation observes:
the object path of the locally derived request proxy, the next signal on its
response stream (`none` = stream ended; `Except.error` = body failed to
deserialise; otherwise the response code and typed body), and the broker
call's outcome (on success, the object path of the returned reply proxy). -/
structure CorrInput (α : Type) where
  reqPath : String
  signal : Option (Except Unit (Nat × α))
  callRes : Except Unit String

/-- Model of the macro `call_and_receive_response!`. -/
def callAndReceiveResponse (inp : CorrInput α) : Except FdoError α :=
  let arm1 : Except FdoError α :=
    match inp.signal with
    | none => .error .invalidReply
    | some (.error _) => .error .bodyDecode
    | some (.ok (res_code, res)) =>
      if res_code = 0 then .ok res else .error (.interactionCancelled res_code)
  let arm2 : Except FdoError String :=
    match inp.callRes with
    | .error _ => .error .callFailed
    | .ok p => .ok p
  match arm1, arm2 with
  | .ok res, .ok rp => if inp.reqPath = rp then .ok res else .error .invalidReply
  | .error e, _ => .error e
  | .ok _, .error e => .error e

/-! Broker response shapes (`src/screencast.rs`). -/

/-- Struct `StreamProperties`; `source_type` is the `SourceType` bit set. -/
structure StreamProperties where
  id : Option String
  position : Option (Int × Int)
  size : Option (Int × Int)
  source_type : Option Nat
deriving DecidableEq

/-- Struct `Stream(u32, StreamProperties)`. -/
structure Stream where
  pipewire_path : Nat
  properties : StreamProperties
deriving DecidableEq

structure CreateSessionResponse where
  session_handle : Option String
deriving DecidableEq

structure StartCastResponse where
  streams : List Stream
  restore_token : Option String
deriving DecidableEq

/-- Struct `SelectSourcesOptions` as `begin_capture` fills it in; the handle token
is the generated `UniqueToken`, `types`/`cursor_mode`/`persist_mode` carry
the `u32` representations of the source's constants. -/
structure SelectSourcesOptions where
  handle_token : String
  types : Option Nat
  multiple : Option Bool
  cursor_mode : Option Nat
  restore_token : Option String
  persist_mode : Option Nat
deriving DecidableEq

/-! Capture manager (`src/capture.rs`). -/

/-- Struct `Desktop` (capture.rs): filtered source record plus transport port. -/
structure Desktop where
  id : String
  loded_id : Nat
  pipewire_path : Nat
  width : Int
  height : Int
  port : Option Nat
deriving DecidableEq

inductive CaptureError where
  | alreadyStarted
  | fdo (e : FdoError)
deriving DecidableEq

/-- The fields of `CaptureManager` that `begin_capture` touches
(`connection` is ambient). `session` models `Option<Box<SessionProxy>>`. -/
structure ManagerState where
  token : Option String
  session : Option String
deriving DecidableEq

/-- The `./token` file; `none` = absent. -/
structure TokenStore where
  contents : Option String
deriving DecidableEq

/-- One detached supervising task spawned by `stream_desktop_gstreamer`;
`panics` records whether its `cmd.spawn().expect(..)` panics. -/
structure SpawnedTask where
  path : Nat
  panics : Bool
deriving DecidableEq

/-- Outcome of one `begin_capture` call: the returned value, a returned
error, or a `panic!` unwinding out of an `expect`. -/
inductive BCResult where
  | ok (desktops : List Desktop)
  | failed (e : CaptureError)
  | panicked (msg : String)
deriving DecidableEq

/-- A finished `begin_capture` call: its outcome, the manager and token-file
state it leaves behind, the supervising tasks it spawned, and the
`SelectSourcesOptions` it sent to the broker (if it got that far). -/
structure BCRun where
  result : BCResult
  state : ManagerState
  store : TokenStore
  tasks : List SpawnedTask
  ssOpts : Option SelectSourcesOptions
deriving DecidableEq

/-- Everything external one `begin_capture` call consumes: filesystem
behaviour, the three correlator environments, the generated handle tokens,
and the per-path port-bind and process-spawn outcomes. -/
structure BrokerEnv where
  readOk : Bool
  cs : CorrInput CreateSessionResponse
  ss : CorrInput (List (String × Nat))
  sc : CorrInput StartCastResponse
  srcToken : String
  startToken : String
  writeOk : Bool
  bindPort : Nat → Option Nat
  spawnOk : Nat → Bool

/-- Model of `try_get_token`: `tokio::fs::read_to_string("./token")`. -/
def tryGetToken (store : TokenStore) (readOk : Bool) : Except Unit String :=
  match store.contents with
  | some v => if readOk then .ok v else .error ()
  | none => .error ()

/-- Model of `try_write_token`: requires `self.token` to be set
(`FailedTokenOperation` otherwise), then creates and writes `./token`. -/
def tryWriteToken (st : ManagerState) (_store : TokenStore) (writeOk : Bool) :
    Except Unit TokenStore :=
  match st.token with
  | some t => if writeOk then .ok ⟨some t⟩ else .error ()
  | none => .error ()

/-- A character permitted inside a D-Bus object path element. -/
def isPathChar (c : Char) : Bool :=
  c.isAlphanum || c = '_'

/-- Scan the characters after the leading `/`: elements of path characters
separated by single `/`, no empty element and no trailing `/`.  The flag
says an element character is required next (right after a separator). -/
def pathChars : Bool → List Char → Bool
  | needChar, [] => !needChar
  | needChar, c :: cs =>
    if c = '/' then
      if needChar then false else pathChars true cs
    else
      isPathChar c && pathChars false cs

/-- D-Bus object path validity as enforced by `ObjectPath::try_from`. -/
def isValidObjectPath (s : String) : Bool :=
  match s.toList with
  | ['/'] => true
  | '/' :: cs => pathChars true cs
  | _ => false

/-- A raw record both of whose required properties are present
(the complement of the two `warn!`-and-skip branches of the filter). -/
def viable (s : Stream) : Bool :=
  s.properties.size.isSome && s.properties.id.isSome

/-- The closure of `streams.iter().enumerate().filter_map(..)`: drop the
record when size or id is missing, otherwise build a `Desktop` whose
`loded_id` is the enumeration index. -/
def filterStream (idx : Nat) (s : Stream) : Option Desktop :=
  match s.properties.size with
  | none => none
  | some wh =>
    match s.properties.id with
    | none => none
    | some i => some ⟨i, idx, s.pipewire_path, wh.1, wh.2, none⟩

/-- The desktop filtering stage of `begin_capture`. -/
def filterDesktops (streams : List Stream) : List Desktop :=
  (enumerate streams).filterMap (fun p => filterStream p.1 p.2)

/-- Model of `stream_desktop_gstreamer`: bind-then-release an ephemeral port (an
`Err` return on bind failure), then detach a supervising task that spawns
the encoder process; `cmd.spawn().expect(..)` makes that task panic when the
spawn fails, after `Ok(port)` has already been returned. -/
def streamDesktopGstreamer (bindPort : Nat → Option Nat) (spawnOk : Nat → Bool)
    (path : Nat) : Except Unit (Nat × SpawnedTask) :=
  match bindPort path with
  | none => .error ()
  | some port => .ok (port, ⟨path, !spawnOk path⟩)

/-- The `flat_map` over filtered desktops: on an `Err` from
`stream_desktop_gstreamer` the desktop is dropped (logged), otherwise it is
returned with its port and the supervising task is recorded. -/
def attachPorts (bindPort : Nat → Option Nat) (spawnOk : Nat → Bool) :
    List Desktop → List Desktop × List SpawnedTask
  | [] => ([], [])
  | d :: rest =>
    let tail := attachPorts bindPort spawnOk rest
    match streamDesktopGstreamer bindPort spawnOk d.pipewire_path with
    | .error _ => tail
    | .ok pt => ({ d with port := some pt.1 } :: tail.1, pt.2 :: tail.2)

/-- Value of `self.token` after the `try_get_token` step. -/
def tokenAfterRead (st : ManagerState) (store : TokenStore) (env : BrokerEnv) : Option String :=
  match tryGetToken store env.readOk with
  | .ok v => some v
  | .error _ => st.token

/-- Model of `CaptureManager::begin_capture`, step for step.  The hardcoded option
values are `SourceType::MONITOR = 1`, `CursorMode::EMBEDDED = 2` and
`PersistMode::ExplicitlyRevoked = 2`. -/
def begin_capture (st : ManagerState) (store : TokenStore) (env : BrokerEnv) : BCRun :=
  if st.session.isSome then
    ⟨.failed .alreadyStarted, st, store, [], none⟩
  else
    let st1 : ManagerState := ⟨tokenAfterRead st store env, st.session⟩
    match callAndReceiveResponse env.cs with
    | .error e => ⟨.failed (.fdo e), st1, store, [], none⟩
    | .ok csr =>
      match csr.session_handle with
      | none =>
        ⟨.panicked "SessionHandle missing from successful CreateSessionResponse",
          st1, store, [], none⟩
      | some sh =>
        if !isValidObjectPath sh then
          ⟨.panicked "Invalid SessionHandle in successful CreateSessionResponse",
            st1, store, [], none⟩
        else
          let srcOpts : SelectSourcesOptions :=
            ⟨env.srcToken, some 1, some true, some 2, st1.token, some 2⟩
          match callAndReceiveResponse env.ss with
          | .error e => ⟨.failed (.fdo e), st1, store, [], some srcOpts⟩
          | .ok _ssr =>
            match callAndReceiveResponse env.sc with
            | .error e => ⟨.failed (.fdo e), st1, store, [], some srcOpts⟩
            | .ok scr =>
              match scr.restore_token with
              | none => ⟨.panicked "No refresh token was present", st1, store, [], some srcOpts⟩
              | some rt =>
                let st2 : ManagerState := ⟨some rt, st1.session⟩
                let store2 : TokenStore :=
                  match tryWriteToken st2 store env.writeOk with
                  | .ok s => s
                  | .error _ => store
                let dp := attachPorts env.bindPort env.spawnOk (filterDesktops scr.streams)
                ⟨.ok dp.1, st2, store2, dp.2, some srcOpts⟩

/-! Support definitions and lemmas about the capture pipeline. -/

/-- The `Desktop` built from a viable record at enumeration index `i`
(the `getD` defaults are never used on viable records). -/
def desktopOfViable (i : Nat) (s : Stream) : Desktop :=
  ⟨s.properties.id.getD "", i, s.pipewire_path,
    (s.properties.size.getD (0, 0)).1, (s.properties.size.getD (0, 0)).2, none⟩

/-! Concrete broker environments for the capture-manager claims. -/

/-- A fresh manager, as `CaptureManager::new` builds it. -/
def freshState : ManagerState := ⟨none, none⟩

/-- No `./token` file. -/
def emptyStore : TokenStore := ⟨none⟩

/-- A viable raw source record. -/
def streamA : Stream := ⟨10, ⟨some "a", none, some (1920, 1080), some 1⟩⟩

/-- A second viable raw source record. -/
def streamB : Stream := ⟨11, ⟨some "b", none, some (800, 600), some 1⟩⟩

/-- A raw source record with no size property. -/
def streamNoSize : Stream := ⟨20, ⟨some "n", none, none, some 1⟩⟩

/-- A broker that answers every correlation successfully on the matching
path, hands out session `/s`, streams `[streamA]` and restore token `tok`,
with working filesystem, port binding and process spawning. -/
def envOk : BrokerEnv :=
  ⟨true,
    ⟨"/r1", some (.ok (0, ⟨some "/s"⟩)), .ok "/r1"⟩,
    ⟨"/r2", some (.ok (0, [])), .ok "/r2"⟩,
    ⟨"/r3", some (.ok (0, ⟨[streamA], some "tok"⟩)), .ok "/r3"⟩,
    "t1", "t2", true, fun _ => some 5000, fun _ => true⟩

/-- Like `envOk` but start-cast returns three records of which the first
lacks a size. -/
def envGap : BrokerEnv :=
  ⟨true,
    ⟨"/r1", some (.ok (0, ⟨some "/s"⟩)), .ok "/r1"⟩,
    ⟨"/r2", some (.ok (0, [])), .ok "/r2"⟩,
    ⟨"/r3", some (.ok (0, ⟨[streamNoSize, streamA, streamB], some "tok"⟩)), .ok "/r3"⟩,
    "t1", "t2", true, fun _ => some 5000, fun _ => true⟩

/-- Like `envOk` but the otherwise-successful create-session reply carries
no session handle. -/
def envNoHandle : BrokerEnv :=
  ⟨true,
    ⟨"/r1", some (.ok (0, ⟨none⟩)), .ok "/r1"⟩,
    ⟨"/r2", some (.ok (0, [])), .ok "/r2"⟩,
    ⟨"/r3", some (.ok (0, ⟨[streamA], some "tok"⟩)), .ok "/r3"⟩,
    "t1", "t2", true, fun _ => some 5000, fun _ => true⟩

/-- Like `envOk` but the successful start-cast reply has no restore token. -/
def envNoToken : BrokerEnv :=
  ⟨true,
    ⟨"/r1", some (.ok (0, ⟨some "/s"⟩)), .ok "/r1"⟩,
    ⟨"/r2", some (.ok (0, [])), .ok "/r2"⟩,
    ⟨"/r3", some (.ok (0, ⟨[streamA], none⟩)), .ok "/r3"⟩,
    "t1", "t2", true, fun _ => some 5000, fun _ => true⟩

/-- Like `envOk` but with two viable sources, path-dependent ports, and a
process spawn that fails for pipewire path 11. -/
def envSpawnFail : BrokerEnv :=
  ⟨true,
    ⟨"/r1", some (.ok (0, ⟨some "/s"⟩)), .ok "/r1"⟩,
    ⟨"/r2", some (.ok (0, [])), .ok "/r2"⟩,
    ⟨"/r3", some (.ok (0, ⟨[streamA, streamB], some "tok"⟩)), .ok "/r3"⟩,
    "t1", "t2", true, fun p => some (4000 + p), fun p => p != 11⟩

/-- Like `envSpawnFail` but it is the port bind that fails for path 11. -/
def envBindFail : BrokerEnv :=
  ⟨true,
    ⟨"/r1", some (.ok (0, ⟨some "/s"⟩)), .ok "/r1"⟩,
    ⟨"/r2", some (.ok (0, [])), .ok "/r2"⟩,
    ⟨"/r3", some (.ok (0, ⟨[streamA, streamB], some "tok"⟩)), .ok "/r3"⟩,
    "t1", "t2", true, fun p => if p = 11 then none else some (4000 + p), fun _ => true⟩

/-- The desktops of a successful run, when there was one. -/
def resultIds (r : BCRun) : Option (List Nat) :=
  match r.result with
  | .ok ds => some (ds.map Desktop.loded_id)
  | _ => none

theorem natToLeBytes_length : ∀ k n, (natToLeBytes k n).length = k := by
  intro k
  induction k with
  | zero => intro n; rfl
  | succ k ih => intro n; simp [natToLeBytes, ih]

theorem leBytesToNat_natToLeBytes : ∀ k n, leBytesToNat (natToLeBytes k n) = n % 256 ^ k := by
  intro k
  induction k with
  | zero => intro n; simp [natToLeBytes, leBytesToNat, Nat.mod_one]
  | succ k ih =>
    intro n
    rw [natToLeBytes, leBytesToNat, ih, pow_succ, Nat.mul_comm (256 ^ k) 256, Nat.mod_mul]

theorem writeBytes_enumerateFrom :
    ∀ (bs : List Nat) (k : Nat) (l : List (Option Nat)), k + bs.length = l.length →
      writeBytes l (enumerateFrom k bs) = l.take k ++ bs.map some := by
  intro bs
  induction bs with
  | nil =>
    intro k l h
    simp only [List.length_nil, Nat.add_zero] at h
    simp [writeBytes, enumerateFrom, List.take_of_length_le (Nat.le_of_eq h.symm)]
  | cons b bs ih =>
    intro k l h
    have hk : k < l.length := by
      simp only [List.length_cons] at h
      omega
    have hset : (l.set k (some b)).length = l.length := by simp
    have h' : (k + 1) + bs.length = (l.set k (some b)).length := by
      simp only [List.length_cons] at h
      omega
    have step : writeBytes l (enumerateFrom k (b :: bs)) =
        writeBytes (l.set k (some b)) (enumerateFrom (k + 1) bs) := rfl
    rw [step, ih (k + 1) (l.set k (some b)) h']
    have htake : (l.set k (some b)).take (k + 1) = l.take k ++ [some b] := by
      rw [List.set_eq_take_append_cons_drop, if_pos hk]
      rw [List.take_append_eq_append_take]
      simp [List.length_take, Nat.min_eq_left (Nat.le_of_lt hk), Nat.le_of_lt hk]
    rw [htake]
    simp

theorem writeBytes_enumerate (bs : List Nat) (l : List (Option Nat)) (h : bs.length = l.length) :
    writeBytes l (enumerate bs) = bs.map some := by
  have := writeBytes_enumerateFrom bs 0 l (by omega)
  simpa [enumerate] using this

theorem handshakeBytes_length (p : LodestarHandshakePacket) : (handshakeBytes p).length = 16 := by
  simp [handshakeBytes, natToLeBytes_length]

/-! Claims about the wire protocol. -/

/-- C4 counterexample: `LodestarHandshakePacket { api_revision: 1, accepted: true }`
encodes to a 16-byte payload (the `accepted` flag is widened to a `u64`
before its bytes are chained), not to the claimed 9-byte payload
`01 00 00 00 00 00 00 00 01`, and the declared canonical length
`PACKET_LENGTHS[0] = size_of::<LodestarHandshakePacket>()` is 16, not 9. -/
theorem handshake_encode_not_nine_bytes :
    (handshakePacketInto ⟨1, true⟩).length = 16 ∧
    handshakePacketInto ⟨1, true⟩ ≠ [1, 0, 0, 0, 0, 0, 0, 0, 1].map some ∧
    PACKET_LENGTHS.getD LodestarPacketType.handshake.tag 0 ≠ 9 := by
  decide

/-- C4 amended: encoding a Handshake packet produces a 16-byte payload —
the 8-byte little-endian API revision followed by the boolean accepted flag
widened to a `u64` and written as 8 further little-endian bytes; every byte
of the buffer is initialised, the first 8 bytes decode back to the API
revision (mod `2 ^ 64`), and the canonical declared length for tag 0 is 16.
`Handshake(api_revision = 1, accepted = true)` thus encodes to payload
`01 00 00 00 00 00 00 00 01 00 00 00 00 00 00 00`. -/
theorem handshake_encode_spec (p : LodestarHandshakePacket) :
    handshakePacketInto p = (handshakeBytes p).map some ∧
    (handshakeBytes p).length = 16 ∧
    leBytesToNat ((handshakeBytes p).take 8) = p.api_revision % 2 ^ 64 ∧
    (handshakeBytes p).drop 8 = natToLeBytes 8 (if p.accepted then 1 else 0) ∧
    PACKET_LENGTHS.getD LodestarPacketType.handshake.tag 0 = 16 := by
  refine ⟨?_, handshakeBytes_length p, ?_, ?_, rfl⟩
  · rw [handshakePacketInto]
    exact writeBytes_enumerate _ _ (by simp [handshakeBytes_length, mkUninit])
  · rw [handshakeBytes,
      List.take_left' (natToLeBytes_length 8 p.api_revision),
      leBytesToNat_natToLeBytes]
    norm_num
  · rw [handshakeBytes, List.drop_left' (natToLeBytes_length 8 p.api_revision)]

/-- C5: the multi-record packing routine of `LodestarDesktopPacket::into`
never writes the record area.  For the single-entry list
`[(id = 7, width = 1920, height = 1080)]` the 24-byte buffer keeps the
count in bytes 0–7 but every one of the 16 record bytes is written at the
fixed offset `idx + 1 = 1`, so bytes 8–23 remain uninitialised (`none`) —
the record bytes `07 .. 80 07 00 00 38 04 00 00` that sequential packing
would place there never appear in the payload. -/
theorem desktop_packet_offset_bug :
    (desktopPacketInto 1 [⟨7, 1920, 1080⟩]).length = 24 ∧
    (desktopPacketInto 1 [⟨7, 1920, 1080⟩]).take 8 = (natToLeBytes 8 1).map some ∧
    (desktopPacketInto 1 [⟨7, 1920, 1080⟩]).drop 8 = List.replicate 16 none ∧
    desktopRecordBytes ⟨7, 1920, 1080⟩ =
      [7, 0, 0, 0, 0, 0, 0, 0, 128, 7, 0, 0, 56, 4, 0, 0] := by
  decide

/-- C6 counterexample: `End` has canonical size 0, which coincides with the
table's "variable length" sentinel, so an `End` packet with declared length
5 passes `parse_packet` instead of failing with `InvalidPacketLength`; and
`Handshake` has canonical size 16, so the declared length 9 the claim calls
canonical is rejected. -/
theorem parse_packet_sentinel_collision :
    parse_packet_check ⟨.endOfStream, 5⟩ = .ok () ∧ (5 : Nat) ≠ 0 ∧
    parse_packet_check ⟨.handshake, 9⟩ = .error .invalidPacketLength := by
  decide

/-- C6 amended: the canonical sizes are table-derived — Handshake 16,
SwitchSource 8, End 0.  For Handshake and SwitchSource a declared payload
length differing from the canonical size fails with `InvalidPacketLength`
(and equality succeeds), never yielding a partial parse; End's canonical
size 0 collides with the variable-length sentinel, so End packets are
accepted at every declared length, as are DesktopList packets. -/
theorem parse_packet_length_spec (len : Nat) :
    (parse_packet_check ⟨.handshake, len⟩ =
      if len = 16 then .ok () else .error .invalidPacketLength) ∧
    (parse_packet_check ⟨.switchSource, len⟩ =
      if len = 8 then .ok () else .error .invalidPacketLength) ∧
    parse_packet_check ⟨.endOfStream, len⟩ = .ok () ∧
    parse_packet_check ⟨.desktopList, len⟩ = .ok () := by
  refine ⟨?_, ?_, ?_, ?_⟩ <;>
    simp [parse_packet_check, PACKET_LENGTHS, LodestarPacketType.tag]

/-- C7: decoding a DesktopList performs no length validation at all —
`parse_packet` accepts any declared length for tag 1 (sentinel 0), and
`get_desktops` reads `desktop_count` 16-byte records unchecked:  with
`desktop_count = 1` and an empty record area (8 payload bytes present,
`8 + 1 * 16 = 24` required) it dereferences 16 bytes that are not there
(the `none` read models the out-of-bounds access) instead of failing with
`InvalidPacketLength`. -/
theorem desktop_list_no_length_validation :
    parse_packet_check ⟨.desktopList, 8⟩ = .ok () ∧
    get_desktops 1 [] = [none] ∧
    (8 : Nat) ≠ 8 + 1 * 16 := by
  decide

/-! Claims about the request correlator. -/

/-- Case-split form of `callAndReceiveResponse` (same function, scrutinees
lifted outward), used to reason by cases. -/
theorem callAndReceiveResponse_cases (inp : CorrInput α) :
    callAndReceiveResponse inp =
      match inp.signal, inp.callRes with
      | none, _ => .error .invalidReply
      | some (.error _), _ => .error .bodyDecode
      | some (.ok (code, res)), call =>
        if code = 0 then
          match call with
          | .error _ => .error .callFailed
          | .ok rp => if inp.reqPath = rp then .ok res else .error .invalidReply
        else .error (.interactionCancelled code) := by
  obtain ⟨rp, sig, call⟩ := inp
  rcases sig with _ | ex
  · rcases call with e | p <;> rfl
  · rcases ex with e | cr
    · rcases call with e | p <;> rfl
    · rcases cr with ⟨code, body⟩
      rcases call with e | p <;> by_cases hc : code = 0 <;>
        simp [callAndReceiveResponse, hc]

/-- C1: for every broker correlation routed through
`call_and_receive_response!` (create-session, select-sources and start-cast
all instantiate it, at `CreateSessionResponse`, the result map and
`StartCastResponse` respectively): a well-formed success signal (code 0,
body decoded) whose reply object path differs from the path the originating
request targeted makes the correlation fail with
`ZBus(InvalidReply)` — the spec's `SpoofedReply` — regardless of the
payload; and the typed payload is returned only when the status code is 0,
the broker call itself succeeded, and the two paths match. -/
theorem correlator_spoofed_reply (α : Type) (inp : CorrInput α) :
    (∀ res rp, inp.signal = some (.ok (0, res)) → inp.callRes = .ok rp →
      rp ≠ inp.reqPath → callAndReceiveResponse inp = .error .invalidReply) ∧
    (∀ res, callAndReceiveResponse inp = .ok res →
      inp.signal = some (.ok (0, res)) ∧ inp.callRes = .ok inp.reqPath) := by
  constructor
  · intro res rp hs hc hne
    rw [callAndReceiveResponse_cases, hs, hc]
    show (if inp.reqPath = rp then Except.ok res else Except.error FdoError.invalidReply) =
      Except.error FdoError.invalidReply
    exact if_neg (fun hh => hne hh.symm)
  · intro res h
    rw [callAndReceiveResponse_cases] at h
    rcases hsig : inp.signal with _ | ex
    · rw [hsig] at h; simp at h
    · rw [hsig] at h
      rcases ex with e | cr
      · simp at h
      · rcases cr with ⟨code, body⟩
        rcases hcall : inp.callRes with e | rp <;> rw [hcall] at h
        · by_cases hcode : code = 0 <;> simp [hcode] at h
        · by_cases hcode : code = 0
          · subst hcode
            have h' : (if inp.reqPath = rp then Except.ok body
                else Except.error FdoError.invalidReply) = Except.ok res := h
            by_cases hp : inp.reqPath = rp
            · rw [if_pos hp] at h'
              cases h'
              exact ⟨rfl, by rw [hp]⟩
            · rw [if_neg hp] at h'; cases h'
          · simp [hcode] at h

/-- C1 witness: a concrete success signal with payload 42 arriving for a
request targeting `/a` while the broker call names `/b` is rejected as
spoofed. -/
theorem correlator_spoofed_reply_witness :
    callAndReceiveResponse (⟨"/a", some (.ok (0, 42)), .ok "/b"⟩ : CorrInput Nat) =
      .error .invalidReply :=
  (correlator_spoofed_reply Nat ⟨"/a", some (.ok (0, 42)), .ok "/b"⟩).1 42 "/b" rfl rfl
    (by decide)

theorem filterDesktops_enumerateFrom (ss : List Stream) : ∀ k,
    (enumerateFrom k ss).filterMap (fun p => filterStream p.1 p.2) =
      ((enumerateFrom k ss).filter (fun p => viable p.2)).map
        (fun p => desktopOfViable p.1 p.2) := by
  induction ss with
  | nil => intro k; rfl
  | cons s rest ih =>
    intro k
    rcases hsz : s.properties.size with _ | wh
    · have hv : viable s = false := by simp [viable, hsz]
      have hhead : filterStream k s = none := by simp [filterStream, hsz]
      simp only [enumerateFrom, List.filterMap_cons, List.filter_cons, hhead, hv]
      simpa using ih (k + 1)
    · rcases hid : s.properties.id with _ | i
      · have hv : viable s = false := by simp [viable, hsz, hid]
        have hhead : filterStream k s = none := by simp [filterStream, hsz, hid]
        simp only [enumerateFrom, List.filterMap_cons, List.filter_cons, hhead, hv]
        simpa using ih (k + 1)
      · have hv : viable s = true := by simp [viable, hsz, hid]
        have hhead : filterStream k s = some (desktopOfViable k s) := by
          simp [filterStream, desktopOfViable, hsz, hid]
        simp only [enumerateFrom, List.filterMap_cons, List.filter_cons, hhead, hv]
        simpa using ih (k + 1)

theorem filterDesktops_eq (ss : List Stream) :
    filterDesktops ss =
      ((enumerate ss).filter (fun p => viable p.2)).map (fun p => desktopOfViable p.1 p.2) :=
  filterDesktops_enumerateFrom ss 0

theorem enumerateFrom_filter_length (ss : List Stream) : ∀ k,
    ((enumerateFrom k ss).filter (fun p => viable p.2)).length = (ss.filter viable).length := by
  induction ss with
  | nil => intro k; rfl
  | cons s rest ih =>
    intro k
    simp only [enumerateFrom, List.filter_cons]
    by_cases hv : viable s <;> simp [hv, ih]

theorem attachPorts_eq (b : Nat → Option Nat) (sp : Nat → Bool) : ∀ l : List Desktop,
    attachPorts b sp l =
      (l.filterMap (fun d =>
        match b d.pipewire_path with
        | none => none
        | some port => some { d with port := some port }),
       l.filterMap (fun d =>
        match b d.pipewire_path with
        | none => none
        | some _ => some ⟨d.pipewire_path, !sp d.pipewire_path⟩)) := by
  intro l
  induction l with
  | nil => rfl
  | cons d rest ih =>
    simp only [attachPorts, ih, List.filterMap_cons, streamDesktopGstreamer]
    rcases hb : b d.pipewire_path with _ | port <;> simp [hb]

theorem filterMap_port_of_bound (b : Nat → Option Nat) (l : List Desktop)
    (hb : ∀ p, (b p).isSome) :
    l.filterMap (fun d =>
        match b d.pipewire_path with
        | none => none
        | some port => some { d with port := some port }) =
      l.map (fun d => { d with port := b d.pipewire_path }) := by
  induction l with
  | nil => rfl
  | cons d rest ih =>
    rcases hbd : b d.pipewire_path with _ | port
    · have := hb d.pipewire_path
      rw [hbd] at this
      simp at this
    · simp only [List.filterMap_cons, hbd, List.map_cons]
      rw [ih]

theorem attachPorts_fst_of_bound (b : Nat → Option Nat) (sp : Nat → Bool)
    (l : List Desktop) (hb : ∀ p, (b p).isSome) :
    (attachPorts b sp l).1 = l.map (fun d => { d with port := b d.pipewire_path }) := by
  rw [attachPorts_eq]
  exact filterMap_port_of_bound b l hb

/-- Shape of a fully successful `begin_capture` run, given the branch each
broker interaction takes. -/
theorem begin_capture_success_run (st : ManagerState) (store : TokenStore) (env : BrokerEnv)
    (csr : CreateSessionResponse) (sh : String) (ssr : List (String × Nat))
    (scr : StartCastResponse) (rt : String)
    (hs : st.session = none)
    (hcs : callAndReceiveResponse env.cs = .ok csr)
    (hsh : csr.session_handle = some sh)
    (hv : isValidObjectPath sh = true)
    (hss : callAndReceiveResponse env.ss = .ok ssr)
    (hsc : callAndReceiveResponse env.sc = .ok scr)
    (hrt : scr.restore_token = some rt) :
    begin_capture st store env =
      ⟨.ok (attachPorts env.bindPort env.spawnOk (filterDesktops scr.streams)).1,
        ⟨some rt, none⟩,
        (if env.writeOk then ⟨some rt⟩ else store),
        (attachPorts env.bindPort env.spawnOk (filterDesktops scr.streams)).2,
        some ⟨env.srcToken, some 1, some true, some 2,
          tokenAfterRead st store env, some 2⟩⟩ := by
  unfold begin_capture
  rw [hs, hcs]
  simp only []
  rw [hsh]
  simp only []
  rw [hv]
  simp only [Option.isSome_none, Bool.false_eq_true, if_false, Bool.not_true]
  rw [hss]
  simp only []
  rw [hsc]
  simp only []
  rw [hrt]
  simp only [tryWriteToken]
  by_cases hw : env.writeOk <;> simp [hw]

/-- Whenever the select-sources request is reached (session created, handle
present and valid), the options sent carry the token loaded at the start of
the run, whatever happens afterwards. -/
theorem begin_capture_ssOpts (st : ManagerState) (store : TokenStore) (env : BrokerEnv)
    (csr : CreateSessionResponse) (sh : String)
    (hs : st.session = none)
    (hcs : callAndReceiveResponse env.cs = .ok csr)
    (hsh : csr.session_handle = some sh)
    (hv : isValidObjectPath sh = true) :
    (begin_capture st store env).ssOpts =
      some ⟨env.srcToken, some 1, some true, some 2, tokenAfterRead st store env, some 2⟩ := by
  unfold begin_capture
  rw [hs, hcs]
  simp only []
  rw [hsh]
  simp only []
  rw [hv]
  simp only [Option.isSome_none, Bool.false_eq_true, if_false, Bool.not_true]
  rcases callAndReceiveResponse env.ss with e | ssr
  · simp
  simp only []
  rcases callAndReceiveResponse env.sc with e | scr
  · simp
  simp only []
  rcases scr.restore_token with _ | rt
  · simp
  simp only [tryWriteToken]

/-- Inversion of a successful `begin_capture` run: the idle precondition
held, all three correlations succeeded, the restore token was present, and
the run has the success shape. -/
theorem begin_capture_ok_inv (st : ManagerState) (store : TokenStore) (env : BrokerEnv)
    (ds : List Desktop) (h : (begin_capture st store env).result = .ok ds) :
    st.session = none ∧
    ∃ scr rt, callAndReceiveResponse env.sc = .ok scr ∧ scr.restore_token = some rt ∧
      ds = (attachPorts env.bindPort env.spawnOk (filterDesktops scr.streams)).1 ∧
      begin_capture st store env =
        ⟨.ok ds, ⟨some rt, none⟩, (if env.writeOk then ⟨some rt⟩ else store),
          (attachPorts env.bindPort env.spawnOk (filterDesktops scr.streams)).2,
          some ⟨env.srcToken, some 1, some true, some 2,
            tokenAfterRead st store env, some 2⟩⟩ := by
  have hs : st.session = none := by
    rcases hsess : st.session with _ | s
    · rfl
    · unfold begin_capture at h
      rw [hsess] at h
      simp at h
  refine ⟨hs, ?_⟩
  unfold begin_capture at h
  rw [hs] at h
  simp only [Option.isSome_none, Bool.false_eq_true, if_false] at h
  rcases hcs : callAndReceiveResponse env.cs with e | csr <;> rw [hcs] at h
  · simp at h
  simp only [] at h
  rcases hsh : csr.session_handle with _ | sh <;> rw [hsh] at h
  · simp at h
  simp only [] at h
  rcases hv : isValidObjectPath sh with _ | _ <;> rw [hv] at h
  · simp at h
  simp only [Bool.not_true, Bool.false_eq_true, if_false] at h
  rcases hss : callAndReceiveResponse env.ss with e | ssr <;> rw [hss] at h
  · simp at h
  simp only [] at h
  rcases hsc : callAndReceiveResponse env.sc with e | scr <;> rw [hsc] at h
  · simp at h
  simp only [] at h
  rcases hrt : scr.restore_token with _ | rt <;> rw [hrt] at h
  · simp at h
  simp only [tryWriteToken] at h
  have hds : ds = (attachPorts env.bindPort env.spawnOk (filterDesktops scr.streams)).1 := by
    by_cases hw : env.writeOk <;> simp [hw] at h <;> exact h.symm
  refine ⟨scr, rt, rfl, hrt, hds, ?_⟩
  rw [begin_capture_success_run st store env csr sh ssr scr rt hs hcs hsh hv hss hsc hrt, hds]

/-! Claims about the capture-session manager. -/

/-- C2: after a fully successful negotiation `begin_capture` never stores
the created session, so `session` is still `none` and a second call is not
rejected — it runs a whole new negotiation and succeeds instead of failing
with `AlreadyStarted`.  The third conjunct shows the guard can never fire
after any run: no branch of `begin_capture` ever assigns the `session`
field. -/
theorem begin_capture_rerun_not_rejected :
    (begin_capture freshState emptyStore envOk).result =
      .ok [⟨"a", 0, 10, 1920, 1080, some 5000⟩] ∧
    (begin_capture (begin_capture freshState emptyStore envOk).state
        (begin_capture freshState emptyStore envOk).store envOk).result =
      .ok [⟨"a", 0, 10, 1920, 1080, some 5000⟩] ∧
    ∀ st store env, (begin_capture st store env).state.session = st.session := by
  refine ⟨by decide, by decide, ?_⟩
  intro st store env
  unfold begin_capture
  rcases hss0 : st.session with _ | s
  · simp only [Option.isSome_none, Bool.false_eq_true, if_false]
    rcases callAndReceiveResponse env.cs with e | csr
    · rfl
    simp only []
    rcases csr.session_handle with _ | sh
    · rfl
    simp only []
    rcases isValidObjectPath sh
    · rfl
    simp only [Bool.not_false, Bool.not_true, Bool.false_eq_true, if_false]
    rcases callAndReceiveResponse env.ss with e | ssr
    · rfl
    simp only []
    rcases callAndReceiveResponse env.sc with e | scr
    · rfl
    simp only []
    rcases scr.restore_token with _ | rt
    · rfl
    rfl
  · show st.session = some s
    exact hss0

/-- C3 counterexample: a 3-record raw list whose first record lacks a size
yields 2 Desktops whose `loded_id`s are the surviving records' positions in
the raw list, `[1, 2]` — not the reassigned `0..K-1 = [0, 1]` the claim
states (the `enumerate` runs before the `filter_map`). -/
theorem begin_capture_ids_keep_raw_indices :
    resultIds (begin_capture freshState emptyStore envGap) = some [1, 2] ∧
    [1, 2] ≠ List.range 2 := by
  decide

/-- C3 amended: for a raw source list of N records of which exactly K have
both an identifier and a size, a successful `begin_capture` (with every
port bind succeeding) yields exactly K Desktops in the original order, and
each Desktop's `loded_id` is the index its record had in the raw list (the
indices of dropped records are skipped, not reassigned). -/
theorem begin_capture_filter_spec (st : ManagerState) (store : TokenStore) (env : BrokerEnv)
    (csr : CreateSessionResponse) (sh : String) (ssr : List (String × Nat))
    (scr : StartCastResponse) (rt : String)
    (hs : st.session = none)
    (hcs : callAndReceiveResponse env.cs = .ok csr)
    (hsh : csr.session_handle = some sh)
    (hv : isValidObjectPath sh = true)
    (hss : callAndReceiveResponse env.ss = .ok ssr)
    (hsc : callAndReceiveResponse env.sc = .ok scr)
    (hrt : scr.restore_token = some rt)
    (hb : ∀ p, (env.bindPort p).isSome) :
    ∃ ds, (begin_capture st store env).result = .ok ds ∧
      ds.length = (scr.streams.filter viable).length ∧
      ds.map Desktop.loded_id =
        ((enumerate scr.streams).filter (fun p => viable p.2)).map Prod.fst := by
  have hrun := begin_capture_success_run st store env csr sh ssr scr rt
    hs hcs hsh hv hss hsc hrt
  have hfst := attachPorts_fst_of_bound env.bindPort env.spawnOk (filterDesktops scr.streams) hb
  refine ⟨(attachPorts env.bindPort env.spawnOk (filterDesktops scr.streams)).1,
    by rw [hrun], ?_, ?_⟩
  · rw [hfst, List.length_map, filterDesktops_eq, List.length_map, enumerate,
      enumerateFrom_filter_length]
  · rw [hfst, filterDesktops_eq, List.map_map, List.map_map]
    exact List.map_congr_left (fun p _ => rfl)

/-- C3 witness: the amended theorem applied to the concrete broker `envGap`
(three records, the first without a size). -/
theorem begin_capture_filter_spec_witness :
    ∃ ds, (begin_capture freshState emptyStore envGap).result = .ok ds ∧
      ds.length = (([streamNoSize, streamA, streamB].filter viable).length) ∧
      ds.map Desktop.loded_id =
        ((enumerate [streamNoSize, streamA, streamB]).filter (fun p => viable p.2)).map
          Prod.fst :=
  begin_capture_filter_spec freshState emptyStore envGap ⟨some "/s"⟩ "/s" []
    ⟨[streamNoSize, streamA, streamB], some "tok"⟩ "tok"
    rfl (by decide) rfl (by decide) (by decide) (by decide) rfl (fun _ => rfl)

/-- C8: `begin_capture` panics (it does not return an error) on two broker
reply shapes the interface allows: an otherwise-successful create-session
reply whose `session_handle` is absent hits
`expect("SessionHandle missing from successful CreateSessionResponse")`,
and a successful start-cast reply whose optional `restore_token` is absent
hits `expect("No refresh token was present")`. -/
theorem begin_capture_panics_on_interface_shapes :
    (begin_capture freshState emptyStore envNoHandle).result =
      .panicked "SessionHandle missing from successful CreateSessionResponse" ∧
    (begin_capture freshState emptyStore envNoToken).result =
      .panicked "No refresh token was present" := by
  decide

/-- C9: after a successful negotiation with a working token file, the
persisted token equals the restore token the start-cast correlation
returned, and a subsequent negotiation by a fresh manager over that store
carries exactly that token as the `restore_token` field of its
select-sources options. -/
theorem restore_token_round_trip (st1 : ManagerState) (store1 : TokenStore)
    (env1 env2 : BrokerEnv) (ds : List Desktop) (rt : String) (opts : SelectSourcesOptions)
    (h1 : (begin_capture st1 store1 env1).result = .ok ds)
    (hw : env1.writeOk = true)
    (hrt : (callAndReceiveResponse env1.sc).map StartCastResponse.restore_token =
      .ok (some rt))
    (hread : env2.readOk = true)
    (hopts : (begin_capture freshState (begin_capture st1 store1 env1).store env2).ssOpts =
      some opts) :
    (begin_capture st1 store1 env1).store.contents = some rt ∧
    opts.restore_token = some rt := by
  obtain ⟨-, scr, rt', hsc, hrt', -, hrun⟩ := begin_capture_ok_inv st1 store1 env1 ds h1
  rw [hsc] at hrt
  simp only [Except.map] at hrt
  rw [hrt'] at hrt
  cases hrt
  have hstore : (begin_capture st1 store1 env1).store = ⟨some rt⟩ := by
    rw [hrun]
    simp [hw]
  refine ⟨by rw [hstore], ?_⟩
  rw [hstore] at hopts
  rcases hopts2 : (begin_capture freshState (⟨some rt⟩ : TokenStore) env2).ssOpts
    with _ | opts2
  · rw [hopts2] at hopts; cases hopts
  · rw [hopts2] at hopts
    cases hopts
    rcases hcs2 : callAndReceiveResponse env2.cs with e | csr2
    · rw [begin_capture] at hopts2
      rw [hcs2] at hopts2
      simp [freshState] at hopts2
    rcases hsh2 : csr2.session_handle with _ | sh2
    · rw [begin_capture] at hopts2
      rw [hcs2] at hopts2
      simp only [] at hopts2
      rw [hsh2] at hopts2
      simp [freshState] at hopts2
    rcases hv2 : isValidObjectPath sh2 with _ | _
    · rw [begin_capture] at hopts2
      rw [hcs2] at hopts2
      simp only [] at hopts2
      rw [hsh2] at hopts2
      simp only [] at hopts2
      rw [hv2] at hopts2
      simp [freshState] at hopts2
    · rw [begin_capture_ssOpts freshState ⟨some rt⟩ env2 csr2 sh2 rfl hcs2 hsh2 hv2]
        at hopts2
      cases hopts2
      simp [tokenAfterRead, tryGetToken, hread]

/-- C9 witness: the round trip through the concrete broker `envOk`, whose
start-cast correlation returns restore token `tok`. -/
theorem restore_token_round_trip_witness :
    (begin_capture freshState emptyStore envOk).store.contents = some "tok" ∧
    (⟨"t1", some 1, some true, some 2, some "tok", some 2⟩ :
      SelectSourcesOptions).restore_token = some "tok" :=
  restore_token_round_trip freshState emptyStore envOk envOk
    [⟨"a", 0, 10, 1920, 1080, some 5000⟩] "tok"
    ⟨"t1", some 1, some true, some 2, some "tok", some 2⟩
    (by decide) rfl (by decide) rfl (by decide)

/-- C10 counterexample: with two viable sources and the encoder process
spawn failing for pipewire path 11, `begin_capture` still returns both
Desktops (the spawn happens in the detached supervising task, after the
port was already handed back), and that task panics — instead of the
claimed removal of the failed Desktop and panic-free operation. -/
theorem spawn_failure_desktop_not_removed :
    (begin_capture freshState emptyStore envSpawnFail).result =
      .ok [⟨"a", 0, 10, 1920, 1080, some 4010⟩, ⟨"b", 1, 11, 800, 600, some 4011⟩] ∧
    (begin_capture freshState emptyStore envSpawnFail).tasks =
      [⟨10, false⟩, ⟨11, true⟩] := by
  decide

/-- C10 amended: for a successful run, the returned list contains exactly
the filtered Desktops whose ephemeral-port bind succeeded, in order, each
annotated with its port — a bind failure removes only that Desktop and the
operation still succeeds.  A process-spawn failure does not remove its
Desktop: the returned list does not depend on the spawn outcomes at all;
the spawn failure only makes that Desktop's detached supervising task
panic, as the recorded task list shows. -/
theorem begin_capture_bind_failure_spec (st : ManagerState) (store : TokenStore)
    (env : BrokerEnv) (ds : List Desktop)
    (hok : (begin_capture st store env).result = .ok ds) :
    ∃ scr, callAndReceiveResponse env.sc = .ok scr ∧
      ds = (filterDesktops scr.streams).filterMap (fun d =>
        match env.bindPort d.pipewire_path with
        | none => none
        | some port => some { d with port := some port }) ∧
      (begin_capture st store env).tasks = (filterDesktops scr.streams).filterMap (fun d =>
        match env.bindPort d.pipewire_path with
        | none => none
        | some _ => some ⟨d.pipewire_path, !env.spawnOk d.pipewire_path⟩) := by
  obtain ⟨-, scr, rt, hsc, -, hds, hrun⟩ := begin_capture_ok_inv st store env ds hok
  refine ⟨scr, hsc, ?_, ?_⟩
  · rw [hds, attachPorts_eq]
  · rw [hrun]
    show (attachPorts env.bindPort env.spawnOk (filterDesktops scr.streams)).2 = _
    rw [attachPorts_eq]

/-- C10 witness: the amended theorem applied to the concrete broker
`envBindFail`, whose port bind fails for pipewire path 11 — only the bound
Desktop survives. -/
theorem begin_capture_bind_failure_spec_witness :
    ∃ scr, callAndReceiveResponse envBindFail.sc = .ok scr ∧
      [(⟨"a", 0, 10, 1920, 1080, some 4010⟩ : Desktop)] =
        (filterDesktops scr.streams).filterMap (fun d =>
          match envBindFail.bindPort d.pipewire_path with
          | none => none
          | some port => some { d with port := some port }) ∧
      (begin_capture freshState emptyStore envBindFail).tasks =
        (filterDesktops scr.streams).filterMap (fun d =>
          match envBindFail.bindPort d.pipewire_path with
          | none => none
          | some _ => some ⟨d.pipewire_path, !envBindFail.spawnOk d.pipewire_path⟩) :=
  begin_capture_bind_failure_spec freshState emptyStore envBindFail
    [⟨"a", 0, 10, 1920, 1080, some 4010⟩] (by decide)

end Loded
